import Mathlib

/-!
# Verification of the THRIVE-Belize deck engine

Shallow embedding of the deck runtime of this repository and proofs about it.

Two near-identical engine variants exist in the source:
* `src/assets/js/deck.js` — embedded in namespace `Deck`;
* `src/unnamed/part_001` — embedded in namespace `DeckB` (it adds audio
  narration with cue parsing, photo protection, and uses a different music
  widget and a different activity-step table).

Conventions of the embedding:
* JS numbers that only ever hold integers are modelled as `Int` (array
  indices, seconds); exact fractions (the progress percentage) as `ℚ`.
* DOM elements referenced by the code are modelled as fields of explicit
  state records; the `id`-lookup guards (`if (!el) return`) are modelled by
  assuming the element is present, since the claims concern the state the
  code writes into those elements.
* `setInterval` / `clearInterval` are modelled by a list `live` of currently
  registered interval handles together with the JS variable `timerInterval`
  holding the last handle `setInterval` returned; a tick event carries a
  handle and only has an effect while that handle is registered.
* `setTimeout` / `clearTimeout` for narration cues are modelled the same
  way by a `pending` list of (timeout handle, cue element id) pairs.
-/

namespace Deck

/-- One entry of the `ACTIVITY_STEPS` table: a label and a duration in
seconds (`src/assets/js/deck.js`, lines 15–20). -/
structure ActivityStep where
  label : String
  duration : Int
deriving DecidableEq, Repr

/-- The `ACTIVITY_STEPS` table of `src/assets/js/deck.js` (lines 15–20). -/
def ACTIVITY_STEPS : List ActivityStep :=
  [ { label := "Pick one THRIVE module + one evidence principle. Write a one-sentence workshop goal.", duration := 180 },
    { label := "Plan your hardest moment. A participant says something harmful. Write what you\x27d say and do.", duration := 180 },
    { label := "Pair up. Pitch your workshop in 60 seconds. Your partner gives you one challenge.", duration := 120 },
    { label := "Whole class: share the toughest challenge you received.", duration := 120 } ]

/-- The timer module state of `deck.js`: the module variables
`timerStepIndex`, `timerSeconds`, `timerRunning`, `timerInterval`, plus the
DOM state of the `timer-btn` element (its text, class and disabled flag) and
the interval registry (`live`, `nextHandle`) described in the file header. -/
structure TimerSys where
  stepIndex : Nat
  timerSeconds : Int
  timerRunning : Bool
  btnLabel : String
  btnClass : String
  btnDisabled : Bool
  timerInterval : Option Nat
  live : List Nat
  nextHandle : Nat
deriving DecidableEq, Repr

/-- `ACTIVITY_STEPS[0].duration`: the source indexes the (nonempty) step
table directly; an empty table would be a JS `TypeError`, so theorems that
use this carry a nonemptiness hypothesis. -/
def headDuration (steps : List ActivityStep) : Int :=
  match steps with
  | [] => 0
  | st :: _ => st.duration

/-- The effect of `clearInterval(timerInterval)`: deregister the handle the
variable `timerInterval` names (a no-op on every other handle). -/
def clearCurrentInterval (s : TimerSys) : List Nat :=
  s.live.filter (fun x => decide (¬ s.timerInterval = some x))

/-- State set up by `setupTimer` (`deck.js`, lines 164–175): step 0, first
step's duration, not running; the button's initial markup shows "Start". -/
def initTimer (steps : List ActivityStep) : TimerSys :=
  { stepIndex := 0
    timerSeconds := headDuration steps
    timerRunning := false
    btnLabel := "Start"
    btnClass := "timer-btn timer-btn--start"
    btnDisabled := false
    timerInterval := none
    live := []
    nextHandle := 0 }

/-- `startTimer` (`deck.js`, lines 177–196) minus the interval callback
body: set `timerRunning`, relabel the button, and register a fresh interval
whose handle is stored in `timerInterval`. -/
def startTimer (s : TimerSys) : TimerSys :=
  { s with
    timerRunning := true
    btnLabel := "Pause"
    btnClass := "timer-btn timer-btn--pause"
    timerInterval := some s.nextHandle
    live := s.live ++ [s.nextHandle]
    nextHandle := s.nextHandle + 1 }

/-- The body of the interval callback inside `startTimer` (`deck.js`, lines
181–195): decrement `timerSeconds`; on reaching `<= 0` advance the step,
either reloading the new step's duration or — past the last step — clearing
the interval, stopping, zeroing the clock and disabling the button. -/
def tickUpdate (steps : List ActivityStep) (s : TimerSys) : TimerSys :=
  let ts := s.timerSeconds - 1
  if ts ≤ 0 then
    let si := s.stepIndex + 1
    if h : si < steps.length then
      { s with stepIndex := si, timerSeconds := (steps.get ⟨si, h⟩).duration }
    else
      { s with
        stepIndex := si
        timerSeconds := 0
        timerRunning := false
        btnLabel := "Done"
        btnDisabled := true
        live := clearCurrentInterval s }
  else
    { s with timerSeconds := ts }

/-- `pauseTimer` (`deck.js`, lines 198–203). -/
def pauseTimer (s : TimerSys) : TimerSys :=
  { s with
    timerRunning := false
    live := clearCurrentInterval s
    btnLabel := "Resume"
    btnClass := "timer-btn timer-btn--start" }

/-- `resetTimer` (`deck.js`, lines 205–213): clear the interval first, then
restore step 0, the first step's duration, and the enabled "Start" button. -/
def resetTimer (steps : List ActivityStep) (s : TimerSys) : TimerSys :=
  { s with
    live := clearCurrentInterval s
    timerRunning := false
    stepIndex := 0
    timerSeconds := headDuration steps
    btnLabel := "Start"
    btnClass := "timer-btn timer-btn--start"
    btnDisabled := false }

/-- The `timer-btn` click handler (`deck.js`, lines 168–170):
`timerRunning ? pauseTimer() : startTimer()`. A disabled DOM button fires no
click events. -/
def clickTimerBtn (s : TimerSys) : TimerSys :=
  if s.btnDisabled then s
  else if s.timerRunning then pauseTimer s else startTimer s

/-- Delivery of a scheduled interval tick: the callback runs only while its
handle is still registered. -/
def tickFire (steps : List ActivityStep) (h : Nat) (s : TimerSys) : TimerSys :=
  if h ∈ s.live then tickUpdate steps s else s

/-- External events driving the timer: the start/pause button, the reset
button, and the firing of a scheduled interval tick. -/
inductive TimerEv where
  | btnClick
  | resetClick
  | tick (h : Nat)
deriving DecidableEq, Repr

/-- One event-driven transition of the timer. -/
def timerStep (steps : List ActivityStep) : TimerEv → TimerSys → TimerSys
  | .btnClick => clickTimerBtn
  | .resetClick => resetTimer steps
  | .tick h => tickFire steps h

/-- Run the timer from its `setupTimer` state through a list of events. -/
def runTimer (steps : List ActivityStep) (evs : List TimerEv) : TimerSys :=
  evs.foldl (fun s e => timerStep steps e s) (initTimer steps)

/-- The spec's `Complete` state, as realized by the code: past the last
step, clock at 0, not running, start control disabled and labelled "Done". -/
def timerComplete (steps : List ActivityStep) (s : TimerSys) : Prop :=
  s.stepIndex = steps.length ∧ s.timerSeconds = 0 ∧ s.timerRunning = false ∧
    s.btnDisabled = true ∧ s.btnLabel = "Done"

instance (steps : List ActivityStep) (s : TimerSys) :
    Decidable (timerComplete steps s) := by
  unfold timerComplete; infer_instance

/-- What `renderTimer` writes into the DOM: the `timer-display` text and
class, and the `timer-step-name` text. -/
structure TimerView where
  text : String
  className : String
  stepText : String
deriving DecidableEq, Repr

/-- `(m < 10 ? "0" : "") + m` (`deck.js`, line 221). -/
def pad2 (n : Int) : String :=
  (if n < 10 then "0" else "") ++ toString n

/-- `renderTimer` (`deck.js`, lines 215–230) as a pure function of the
state it reads. `Math.floor(x / 60)` on a JS number is floor division
(`Int.ediv`); JS `%` keeps the sign of the dividend (`Int.tmod`); the two
agree on the nonnegative values the timer produces. -/
def renderTimer (steps : List ActivityStep) (stepIndex : Nat)
    (timerSeconds : Int) : TimerView :=
  let m := Int.ediv timerSeconds 60
  let sec := Int.tmod timerSeconds 60
  { text := pad2 m ++ ":" ++ pad2 sec
    className := "timer-display" ++
      (if timerSeconds ≤ 10 ∧ 0 < timerSeconds then " danger"
       else if timerSeconds ≤ 30 then " warning" else "")
    stepText :=
      match steps.get? stepIndex with
      | some st => "Step " ++ toString (stepIndex + 1) ++ ": " ++ st.label
      | none => "Activity complete." }

/-! ## Slide navigation, music widget and notes (`deck.js`, lines 65–161) -/

/-- The navigator module state of `deck.js` together with the DOM state it
drives: `currentIndex`, the slides' `active` classes, the progress-fill
width (as an exact percentage), the counter text, the two nav buttons'
disabled flags, the notes panel text, and the music widget (its `visible`
class, the tracking flag `musicActive`, and a count of the `classList`
mutations performed on it). -/
structure NavSys where
  currentIndex : Int
  active : List Bool
  progressWidth : ℚ
  counterText : String
  prevDisabled : Bool
  nextDisabled : Bool
  notesText : String
  musicVisible : Bool
  musicActive : Bool
  musicWrites : Nat
deriving DecidableEq, Repr

/-- `updateProgress` (`deck.js`, lines 79–83); JS float arithmetic on these
small integer operands is exact, modelled over `ℚ`. -/
def updateProgress (count : Nat) (s : NavSys) : NavSys :=
  { s with
    progressWidth :=
      if 1 < count then ((s.currentIndex : ℚ) / ((count : ℚ) - 1)) * 100
      else 100 }

/-- `updateCounter` (`deck.js`, lines 85–92). -/
def updateCounter (count : Nat) (s : NavSys) : NavSys :=
  { s with
    counterText := toString (s.currentIndex + 1) ++ " / " ++ toString count
    prevDisabled := s.currentIndex == 0
    nextDisabled := s.currentIndex == (count : Int) - 1 }

/-- `updateNotes` (`deck.js`, lines 121–127): the slides' attached speaker
notes are the fixed list `notes` (`none` = no `.speaker-note` element). -/
def updateNotes (notes : List (Option String)) (s : NavSys) : NavSys :=
  { s with notesText := (notes.getD s.currentIndex.toNat none).getD "" }

/-- `updateMusic` (`deck.js`, lines 147–161): show the widget on the last
three slides, mutating the DOM only when `musicActive` says the visibility
changed; each `classList` mutation bumps `musicWrites`. -/
def updateMusic (count : Nat) (s : NavSys) : NavSys :=
  let shouldShow : Bool := decide ((count : Int) - 3 ≤ s.currentIndex)
  if shouldShow && !s.musicActive then
    { s with musicVisible := true, musicActive := true,
             musicWrites := s.musicWrites + 1 }
  else if !shouldShow && s.musicActive then
    { s with musicVisible := false, musicActive := false,
             musicWrites := s.musicWrites + 1 }
  else s

/-- `goToSlide` (`deck.js`, lines 65–74): reject out-of-range indices, then
swap the `active` class, move the cursor, and run the four refreshes. -/
def goToSlide (count : Nat) (notes : List (Option String)) (index : Int)
    (s : NavSys) : NavSys :=
  if index < 0 ∨ (count : Int) ≤ index then s
  else
    let s1 := { s with
      active := (s.active.set s.currentIndex.toNat false).set index.toNat true
      currentIndex := index }
    updateMusic count (updateNotes notes (updateCounter count (updateProgress count s1)))

/-- `nextSlide` (`deck.js`, line 76). -/
def nextSlide (count : Nat) (notes : List (Option String)) (s : NavSys) : NavSys :=
  goToSlide count notes (min ((count : Int) - 1) (s.currentIndex + 1)) s

/-- `prevSlide` (`deck.js`, line 77). -/
def prevSlide (count : Nat) (notes : List (Option String)) (s : NavSys) : NavSys :=
  goToSlide count notes (max 0 (s.currentIndex - 1)) s

/-! ## Metadata loader (`deck.js`, lines 32–63; identical in `part_001`,
lines 34–65) -/

/-- The three fixed video keys. -/
inductive VKey where
  | v1
  | v2
  | v3
deriving DecidableEq, Repr

/-- One record of the `videos` table: `filename`, `duration`, `remote`,
each possibly absent (`none` models both a missing field and JS
`undefined`/`null`). -/
structure VideoRec where
  filename : Option String
  duration : Option String
  remote : Option String
deriving DecidableEq, Repr

/-- The outcome of reading the embedded `deck-data` payload:
`JSON.parse` threw (`malformed`), the parsed value or its `videos` field
was falsy (`noVideos`), or a table of per-key records (`withVideos`),
where an absent key yields `none` (the code then substitutes `{}`). -/
inductive DeckPayload where
  | malformed
  | noVideos
  | withVideos (tbl : VKey → Option VideoRec)

/-- Per-key DOM state the loader writes: the `-file` and `-dur` text slots,
the player's bound `src`, and the remote URL its `onerror` fallback would
switch to. -/
structure VideoSlot where
  fileText : String
  durText : String
  src : Option String
  errorFallback : Option String
deriving DecidableEq, Repr

/-- JS truthiness of an optional string (`undefined`, `null` and `""` are
falsy). -/
def jsTruthy (o : Option String) : Bool :=
  match o with
  | none => false
  | some s => s != ""

/-- JS `a || b` on an optional string against a default. -/
def jsOrStr (o : Option String) (d : String) : String :=
  if jsTruthy o then o.getD d else d

/-- The per-key body of the `forEach` in `hydrateVideos` (`deck.js`, lines
39–62): fill the text slots with placeholders for absent fields, then bind
the player source, preferring the local file (remembering `remote` as the
`onerror` fallback) and otherwise streaming from the remote URL.
`hasPlayer` models whether `querySelector` finds a player for the key. -/
def hydrateKey (hasPlayer : Bool) (rec : Option VideoRec)
    (slot : VideoSlot) : VideoSlot :=
  let r := rec.getD { filename := none, duration := none, remote := none }
  let slot1 := { slot with
    fileText := jsOrStr r.filename "Not detected"
    durText := jsOrStr r.duration "Play to see" }
  if !hasPlayer then slot1
  else if jsTruthy r.filename then
    { slot1 with src := r.filename, errorFallback := r.remote }
  else if jsTruthy r.remote then
    { slot1 with src := r.remote, fileText := "Streaming from GitHub" }
  else slot1

/-- `hydrateVideos` (`deck.js`, lines 32–63): a parse failure or missing
`videos` field leaves every slot untouched; otherwise each key is hydrated
independently from its record. -/
def hydrateVideos (p : DeckPayload) (hasPlayer : VKey → Bool)
    (slots : VKey → VideoSlot) : VKey → VideoSlot :=
  match p with
  | .malformed => slots
  | .noVideos => slots
  | .withVideos tbl => fun k => hydrateKey (hasPlayer k) (tbl k) (slots k)

end Deck

namespace DeckB

/-- The `ACTIVITY_STEPS` table of `src/unnamed/part_001` (lines 15–20). -/
def ACTIVITY_STEPS : List Deck.ActivityStep :=
  [ { label := "From Video 1: Name one principle you would demand before funding any prevention program.", duration := 60 },
    { label := "From Video 2: Which THRIVE module would you facilitate? Write one sentence why.", duration := 60 },
    { label := "From Video 3: A participant pushes back. Write what you would say using one facilitation move.", duration := 60 },
    { label := "Pair up: Share your three answers. Your partner picks the strongest one.", duration := 60 } ]

/-! ## Timer of `part_001` (lines 257–310)

The timer module variables and button DOM state of `part_001` have the same
shape as in `deck.js`, so its timer functions are stated over
`Deck.TimerSys`; their bodies are transcribed from `part_001`
independently. -/

/-- `startTimer` (`part_001`, lines 257–276) minus the interval callback
body. -/
def startTimer (s : Deck.TimerSys) : Deck.TimerSys :=
  { s with
    timerRunning := true
    btnLabel := "Pause"
    btnClass := "timer-btn timer-btn--pause"
    timerInterval := some s.nextHandle
    live := s.live ++ [s.nextHandle]
    nextHandle := s.nextHandle + 1 }

/-- The interval callback body inside `startTimer` (`part_001`, lines
261–275). -/
def tickUpdate (steps : List Deck.ActivityStep) (s : Deck.TimerSys) :
    Deck.TimerSys :=
  let ts := s.timerSeconds - 1
  if ts ≤ 0 then
    let si := s.stepIndex + 1
    if h : si < steps.length then
      { s with stepIndex := si, timerSeconds := (steps.get ⟨si, h⟩).duration }
    else
      { s with
        stepIndex := si
        timerSeconds := 0
        timerRunning := false
        btnLabel := "Done"
        btnDisabled := true
        live := Deck.clearCurrentInterval s }
  else
    { s with timerSeconds := ts }

/-- `pauseTimer` (`part_001`, lines 278–283). -/
def pauseTimer (s : Deck.TimerSys) : Deck.TimerSys :=
  { s with
    timerRunning := false
    live := Deck.clearCurrentInterval s
    btnLabel := "Resume"
    btnClass := "timer-btn timer-btn--start" }

/-- `resetTimer` (`part_001`, lines 285–293). -/
def resetTimer (steps : List Deck.ActivityStep) (s : Deck.TimerSys) :
    Deck.TimerSys :=
  { s with
    live := Deck.clearCurrentInterval s
    timerRunning := false
    stepIndex := 0
    timerSeconds := Deck.headDuration steps
    btnLabel := "Start"
    btnClass := "timer-btn timer-btn--start"
    btnDisabled := false }

/-! ## Navigation of `part_001` (lines 67–94, 236–241)

Identical to `deck.js` except for the music widget: `part_001`
unconditionally assigns `style.display` on the `spotify-box` element
instead of tracking a `musicActive` flag. -/

/-- The navigator state of `part_001`: shared fields as in `Deck.NavSys`,
but the music widget is the `spotify-box` `style.display` value plus a
count of the style assignments performed on it. -/
structure NavSysB where
  currentIndex : Int
  active : List Bool
  progressWidth : ℚ
  counterText : String
  prevDisabled : Bool
  nextDisabled : Bool
  notesText : String
  musicDisplay : String
  musicWrites : Nat
deriving DecidableEq, Repr

/-- `updateProgress` (`part_001`, lines 81–85). -/
def updateProgress (count : Nat) (s : NavSysB) : NavSysB :=
  { s with
    progressWidth :=
      if 1 < count then ((s.currentIndex : ℚ) / ((count : ℚ) - 1)) * 100
      else 100 }

/-- `updateCounter` (`part_001`, lines 87–94). -/
def updateCounter (count : Nat) (s : NavSysB) : NavSysB :=
  { s with
    counterText := toString (s.currentIndex + 1) ++ " / " ++ toString count
    prevDisabled := s.currentIndex == 0
    nextDisabled := s.currentIndex == (count : Int) - 1 }

/-- `updateNotes` (`part_001`, lines 123–129). -/
def updateNotes (notes : List (Option String)) (s : NavSysB) : NavSysB :=
  { s with notesText := (notes.getD s.currentIndex.toNat none).getD "" }

/-- `updateMusic` (`part_001`, lines 236–241): one unconditional
`style.display` assignment per call. -/
def updateMusic (count : Nat) (s : NavSysB) : NavSysB :=
  let shouldShow : Bool := decide ((count : Int) - 3 ≤ s.currentIndex)
  { s with
    musicDisplay := if shouldShow then "block" else "none"
    musicWrites := s.musicWrites + 1 }

/-- `goToSlide` (`part_001`, lines 67–76). -/
def goToSlide (count : Nat) (notes : List (Option String)) (index : Int)
    (s : NavSysB) : NavSysB :=
  if index < 0 ∨ (count : Int) ≤ index then s
  else
    let s1 := { s with
      active := (s.active.set s.currentIndex.toNat false).set index.toNat true
      currentIndex := index }
    updateMusic count (updateNotes notes (updateCounter count (updateProgress count s1)))

/-- `nextSlide` (`part_001`, line 78). -/
def nextSlide (count : Nat) (notes : List (Option String)) (s : NavSysB) : NavSysB :=
  goToSlide count notes (min ((count : Int) - 1) (s.currentIndex + 1)) s

/-- `prevSlide` (`part_001`, line 79). -/
def prevSlide (count : Nat) (notes : List (Option String)) (s : NavSysB) : NavSysB :=
  goToSlide count notes (max 0 (s.currentIndex - 1)) s

/-! ## Narration cue player of `part_001` (lines 146–220) -/

/-- Digits to a natural number, most significant first. -/
def digitsVal (l : List Char) : Nat :=
  l.foldl (fun a c => a * 10 + (c.toNat - 48)) 0

/-- The JS builtin `parseFloat`, modelled on the decimal inputs this code
meets: skip leading spaces, an optional sign, then decimal digits with an
optional fractional part; `none` models `NaN` (no digit could be parsed).
Exponents, `Infinity` and non-space whitespace are not modelled; the value
is kept exact over `ℚ`. -/
def jsParseFloat (str : String) : Option ℚ :=
  let cs := str.toList.dropWhile (· = ' ')
  let sign : ℚ := if cs.head? = some '-' then -1 else 1
  let cs := if cs.head? = some '-' ∨ cs.head? = some '+' then cs.tail else cs
  let intPart := cs.takeWhile Char.isDigit
  let rest := cs.dropWhile Char.isDigit
  let fracPart :=
    match rest with
    | '.' :: r => r.takeWhile Char.isDigit
    | _ => []
  if intPart.isEmpty ∧ fracPart.isEmpty then none
  else
    some (sign * ((digitsVal intPart : ℚ) +
      (digitsVal fracPart : ℚ) / (10 : ℚ) ^ fracPart.length))

/-- The JS builtin `String.prototype.split` with a single-character
separator, on the character list: splitting never yields `[]`, and a
trailing separator contributes a final empty segment, as in JS. -/
def splitCharList (sep : Char) : List Char → List (List Char)
  | [] => [[]]
  | c :: cs =>
    if c = sep then [] :: splitCharList sep cs
    else
      match splitCharList sep cs with
      | [] => [[c]]
      | g :: gs => (c :: g) :: gs

/-- The JS builtin `String.prototype.split` with a single-character
separator (the code only splits on `","` and `":"`). -/
def splitChar (sep : Char) (s : String) : List String :=
  (splitCharList sep s.toList).map fun l => String.mk l

/-- One narration cue: a target element id and a start offset in seconds
(`none` models the `NaN` that `parseFloat` yields on an unparsable
offset). -/
structure Cue where
  id : String
  start : Option ℚ
deriving DecidableEq, Repr

/-- `parseCues` (`part_001`, lines 177–183): a falsy attribute (`null` or
the empty string, the guard `if (!attr) return []`) yields `[]`; otherwise
split on commas and parse each `id:offset` pair. A pair with no colon gets
`parts[1] === undefined`, and `parseFloat(undefined)` is `NaN` (`none`). -/
def parseCues (attr : Option String) : List Cue :=
  if attr = none ∨ attr = some "" then []
  else
    (splitChar ',' (attr.getD "")).map fun pair =>
      let parts := splitChar ':' pair
      { id := parts.headD ""
        start :=
          match parts.get? 1 with
          | none => none
          | some t => jsParseFloat t }

/-- The button glyphs the narration code writes into `innerHTML`:
`listen` stands for the `LISTEN_ICON` constant (line 149) and `stop` for
the `STOP_ICON` constant (line 150). -/
inductive NarrIcon where
  | listen
  | stop
deriving DecidableEq, Repr

/-- The observable state of one narration `Audio` object. A fresh `Audio`
is paused at time 0. -/
structure AudioV where
  paused : Bool
  currentTime : ℚ
deriving DecidableEq, Repr

/-- The DOM state of one narration button: its `playing` class and its
glyph. -/
structure BtnV where
  playing : Bool
  icon : NarrIcon
deriving DecidableEq, Repr

/-- The `activeNarrate` record (`part_001`, line 147): the triggering
button's index (which also identifies its audio) and the handles of the cue
timeouts it scheduled. -/
structure ActiveRec where
  btnIdx : Nat
  timers : List Nat
deriving DecidableEq, Repr

/-- The narration subsystem state: per-button audio and button DOM states,
the `activeNarrate` pointer, the scheduled-and-not-yet-fired cue timeouts
(handle paired with the cue's target element id), the currently highlighted
(`speaking`) card, and the next fresh timeout handle. -/
structure NarrSys where
  audios : List AudioV
  btns : List BtnV
  active : Option ActiveRec
  pending : List (Nat × String)
  highlighted : Option String
  nextTimer : Nat
deriving DecidableEq, Repr

/-- The audio object at a button index (a fresh audio when out of
range). -/
def audioAt (s : NarrSys) (i : Nat) : AudioV :=
  s.audios.getD i { paused := true, currentTime := 0 }

/-- The button DOM state at an index. -/
def btnAt (s : NarrSys) (i : Nat) : BtnV :=
  s.btns.getD i { playing := false, icon := .listen }

/-- `stopNarrate` (`part_001`, lines 190–199): pause and rewind the active
audio, restore the button, cancel every scheduled cue timeout of the active
record, clear highlighting, and clear `activeNarrate`. -/
def stopNarrate (s : NarrSys) : NarrSys :=
  match s.active with
  | none => s
  | some a =>
    { s with
      audios := s.audios.set a.btnIdx { paused := true, currentTime := 0 }
      btns := s.btns.set a.btnIdx { playing := false, icon := .listen }
      pending := s.pending.filter (fun p => decide (p.1 ∉ a.timers))
      highlighted := none
      active := none }

/-- `playNarrate` (`part_001`, lines 201–220): mark the button as playing,
schedule one cue timeout per cue with fresh handles, record them in
`activeNarrate`, rewind the audio and start playback. -/
def playNarrate (cueTable : List (List Cue)) (i : Nat) (s : NarrSys) :
    NarrSys :=
  let cues := cueTable.getD i []
  let handles := (List.range cues.length).map (s.nextTimer + ·)
  { s with
    btns := s.btns.set i { playing := true, icon := .stop }
    pending := s.pending ++ handles.zip (cues.map Cue.id)
    active := some { btnIdx := i, timers := handles }
    audios := s.audios.set i { paused := false, currentTime := 0 }
    nextTimer := s.nextTimer + cues.length }

/-- The narration button click handler (`part_001`, lines 159–166): a
click on the active, currently playing control stops it; any other click
first stops whatever is active, then starts this control. -/
def clickNarrate (cueTable : List (List Cue)) (i : Nat) (s : NarrSys) :
    NarrSys :=
  match s.active with
  | some a =>
    if a.btnIdx = i ∧ (audioAt s a.btnIdx).paused = false then stopNarrate s
    else playNarrate cueTable i (stopNarrate s)
  | none => playNarrate cueTable i s

/-- Delivery of a scheduled cue timeout (`part_001`, lines 207–213): if
still pending, it is consumed, clears all highlights, and highlights its
target card (modelled as present). -/
def fireCue (t : Nat) (s : NarrSys) : NarrSys :=
  match s.pending.find? (fun p => p.1 == t) with
  | none => s
  | some p =>
    { s with
      pending := s.pending.filter (fun q => q.1 != t)
      highlighted := some p.2 }

/-- The `ended` event handler (`part_001`, lines 168–172): the audio has
paused itself at its end; the button reverts to the listen glyph and
highlights are cleared (without touching `activeNarrate` or the pending
timeouts). -/
def endedNarrate (i : Nat) (s : NarrSys) : NarrSys :=
  { s with
    audios := s.audios.set i { audioAt s i with paused := true }
    btns := s.btns.set i { playing := false, icon := .listen }
    highlighted := none }

end DeckB

/-! ## Verification scaffolding -/

namespace Deck

/-- The spec's worked timer example: a step table of 10 and 5 seconds. -/
def demoSteps : List ActivityStep :=
  [ { label := "step one", duration := 10 }, { label := "step two", duration := 5 } ]

/-- Structural invariant of the timer's interval registry: every registered
handle is the one the `timerInterval` variable names (so at most one
interval is ever live), and no interval survives a stopped timer. -/
def TimerInv (s : TimerSys) : Prop :=
  (∀ h ∈ s.live, s.timerInterval = some h) ∧
    (s.timerRunning = false → s.live = [])

instance (s : TimerSys) : Decidable (TimerInv s) := by
  unfold TimerInv; infer_instance

end Deck

/-- Agreement of the two engines' shared navigator state: everything except
each variant's own music widget. -/
def navAgrees (s : Deck.NavSys) (t : DeckB.NavSysB) : Prop :=
  s.currentIndex = t.currentIndex ∧ s.active = t.active ∧
    s.progressWidth = t.progressWidth ∧ s.counterText = t.counterText ∧
    s.prevDisabled = t.prevDisabled ∧ s.nextDisabled = t.nextDisabled ∧
    s.notesText = t.notesText

instance (s : Deck.NavSys) (t : DeckB.NavSysB) : Decidable (navAgrees s t) := by
  unfold navAgrees; infer_instance

/-- Concrete two-control narration cue table used by witnesses. -/
def narrCues : List (List DeckB.Cue) :=
  [ [ { id := "card-one", start := some 1 } ],
    [ { id := "card-two", start := some 2 } ] ]

/-- A concrete narration state: control 0 is active and playing with one
pending cue timeout; control 1 is idle. -/
def narrDemo : DeckB.NarrSys :=
  { audios := [ { paused := false, currentTime := 0 },
                { paused := true, currentTime := 0 } ]
    btns := [ { playing := true, icon := .stop },
              { playing := false, icon := .listen } ]
    active := some { btnIdx := 0, timers := [0] }
    pending := [(0, "card-one")]
    highlighted := some "card-one"
    nextTimer := 1 }

/-- The active record of `narrDemo`. -/
def narrA : DeckB.ActiveRec := { btnIdx := 0, timers := [0] }

/-- A concrete navigator state for witnesses. -/
def navDemo : Deck.NavSys :=
  { currentIndex := 2
    active := [false, false, true, false, false]
    progressWidth := 50
    counterText := "3 / 5"
    prevDisabled := false
    nextDisabled := false
    notesText := ""
    musicVisible := false
    musicActive := false
    musicWrites := 0 }

/-- The `part_001` navigator state matching `navDemo` on the shared
fields. -/
def navDemoB : DeckB.NavSysB :=
  { currentIndex := 2
    active := [false, false, true, false, false]
    progressWidth := 50
    counterText := "3 / 5"
    prevDisabled := false
    nextDisabled := false
    notesText := ""
    musicDisplay := "none"
    musicWrites := 0 }

/-- A concrete metadata table with the `v2` record absent. -/
def demoTbl : Deck.VKey → Option Deck.VideoRec := fun k =>
  match k with
  | .v1 => some { filename := some "../Jewkes2021ElemOf_Video.mp4",
                  duration := some "24m 2s", remote := none }
  | .v2 => none
  | .v3 => some { filename := none, duration := none,
                  remote := some "https://example.org/a.mp4" }

/-- Blank UI slots for the metadata-loader witnesses. -/
def demoSlots : Deck.VKey → Deck.VideoSlot := fun _ =>
  { fileText := "", durText := "", src := none, errorFallback := none }

/-! ## Claim theorems -/

/-- Helper: `pad2` of a natural number below 100 is two characters. -/
theorem pad2_nat_two_digits : ∀ k : Nat, k < 100 → (Deck.pad2 (k : Int)).length = 2 := by
  decide

/-- Helper: `pad2` of an integer in `[0, 100)` is two characters. -/
theorem pad2_two_digits (n : Int) (h0 : 0 ≤ n) (h1 : n < 100) :
    (Deck.pad2 n).length = 2 := by
  lift n to ℕ using h0
  exact pad2_nat_two_digits n (by exact_mod_cast h1)

/-- C1: each tick of the activity timer decrements `timerSeconds`; on
reaching 0 with more steps remaining it advances the step and reloads that
step's full duration while the timer keeps running; on reaching 0 past the
last step it stops ticking, zeroes the clock, enters the Complete state and
disables the start control. Concretely, for the step list `[10s, 5s]`,
starting from Idle and firing 10 ticks gives step index 1 with 5 seconds
remaining, 5 further ticks give the Complete state with 0 seconds, and a
further tick changes nothing. -/
theorem claim_C1 (steps : List Deck.ActivityStep) (s : Deck.TimerSys) :
    (1 < s.timerSeconds →
      Deck.tickUpdate steps s = { s with timerSeconds := s.timerSeconds - 1 }) ∧
    (s.timerSeconds = 1 → ∀ (h : s.stepIndex + 1 < steps.length),
      Deck.tickUpdate steps s =
        { s with stepIndex := s.stepIndex + 1,
                 timerSeconds := (steps.get ⟨s.stepIndex + 1, h⟩).duration }) ∧
    (s.timerSeconds = 1 → s.stepIndex + 1 = steps.length →
      Deck.tickUpdate steps s =
        { s with stepIndex := s.stepIndex + 1, timerSeconds := 0,
                 timerRunning := false, btnLabel := "Done", btnDisabled := true,
                 live := Deck.clearCurrentInterval s } ∧
      Deck.timerComplete steps (Deck.tickUpdate steps s)) ∧
    ((Deck.runTimer Deck.demoSteps
        (.btnClick :: List.replicate 10 (.tick 0))).stepIndex = 1 ∧
     (Deck.runTimer Deck.demoSteps
        (.btnClick :: List.replicate 10 (.tick 0))).timerSeconds = 5 ∧
     (Deck.runTimer Deck.demoSteps
        (.btnClick :: List.replicate 10 (.tick 0))).timerRunning = true ∧
     Deck.timerComplete Deck.demoSteps
       (Deck.runTimer Deck.demoSteps (.btnClick :: List.replicate 15 (.tick 0))) ∧
     Deck.runTimer Deck.demoSteps (.btnClick :: List.replicate 16 (.tick 0))
        = Deck.runTimer Deck.demoSteps (.btnClick :: List.replicate 15 (.tick 0))) := by
  refine ⟨?_, ?_, ?_, by decide, by decide, by decide, by decide, by decide⟩
  · intro h
    unfold Deck.tickUpdate
    rw [if_neg (by omega)]
  · intro h1 h
    unfold Deck.tickUpdate
    rw [if_pos (by omega), dif_pos h]
  · intro h1 h2
    constructor
    · unfold Deck.tickUpdate
      rw [if_pos (by omega), dif_neg (by omega)]
    · unfold Deck.timerComplete Deck.tickUpdate
      rw [if_pos (by omega), dif_neg (by omega)]
      simp [h2]

/-- Witness for C1 at concrete states drawn from the `[10s, 5s]` run. -/
theorem claim_C1_witness :
    (1 : Int) < (Deck.runTimer Deck.demoSteps [.btnClick]).timerSeconds ∧
    Deck.tickUpdate Deck.demoSteps (Deck.runTimer Deck.demoSteps [.btnClick])
      = { Deck.runTimer Deck.demoSteps [.btnClick] with
          timerSeconds := (Deck.runTimer Deck.demoSteps [.btnClick]).timerSeconds - 1 } ∧
    (Deck.runTimer Deck.demoSteps
        (.btnClick :: List.replicate 9 (.tick 0))).timerSeconds = 1 ∧
    Deck.tickUpdate Deck.demoSteps
        (Deck.runTimer Deck.demoSteps (.btnClick :: List.replicate 9 (.tick 0)))
      = { Deck.runTimer Deck.demoSteps (.btnClick :: List.replicate 9 (.tick 0)) with
          stepIndex := 1, timerSeconds := 5 } ∧
    (Deck.runTimer Deck.demoSteps
        (.btnClick :: List.replicate 14 (.tick 0))).timerSeconds = 1 ∧
    Deck.timerComplete Deck.demoSteps
      (Deck.tickUpdate Deck.demoSteps
        (Deck.runTimer Deck.demoSteps (.btnClick :: List.replicate 14 (.tick 0)))) :=
  ⟨by decide,
   (claim_C1 Deck.demoSteps (Deck.runTimer Deck.demoSteps [.btnClick])).1 (by decide),
   by decide,
   (claim_C1 Deck.demoSteps
      (Deck.runTimer Deck.demoSteps (.btnClick :: List.replicate 9 (.tick 0)))).2.1
      (by decide) (by decide),
   by decide,
   ((claim_C1 Deck.demoSteps
      (Deck.runTimer Deck.demoSteps (.btnClick :: List.replicate 14 (.tick 0)))).2.2.1
      (by decide) (by decide)).2⟩

/-- C6 (amended): for the reachable clock values, the display text is the
two zero-padded fields `MM:SS`; "danger" styling holds exactly for
`0 < remainingSeconds ≤ 10`; "warning" styling holds exactly for
`remainingSeconds = 0` or `10 < remainingSeconds ≤ 30` (the code's
`else if (timerSeconds <= 30)` also catches 0); neutral styling holds
exactly for `remainingSeconds > 30`. -/
theorem claim_C6 (steps : List Deck.ActivityStep) (si : Nat) (ts : Int)
    (h0 : 0 ≤ ts) (h1 : ts < 6000) :
    ((Deck.renderTimer steps si ts).className = "timer-display danger"
        ↔ 0 < ts ∧ ts ≤ 10) ∧
    ((Deck.renderTimer steps si ts).className = "timer-display warning"
        ↔ ts = 0 ∨ (10 < ts ∧ ts ≤ 30)) ∧
    ((Deck.renderTimer steps si ts).className = "timer-display" ↔ 30 < ts) ∧
    (Deck.renderTimer steps si ts).text
        = Deck.pad2 (Int.ediv ts 60) ++ ":" ++ Deck.pad2 (Int.tmod ts 60) ∧
    (Deck.pad2 (Int.ediv ts 60)).length = 2 ∧
    (Deck.pad2 (Int.tmod ts 60)).length = 2 := by
  have hcn : (Deck.renderTimer steps si ts).className =
      (if ts ≤ 10 ∧ 0 < ts then "timer-display danger"
       else if ts ≤ 30 then "timer-display warning" else "timer-display") := by
    unfold Deck.renderTimer
    by_cases hA : ts ≤ 10 ∧ 0 < ts
    · rw [if_pos hA, if_pos hA]; rfl
    · rw [if_neg hA, if_neg hA]
      by_cases hB : ts ≤ 30
      · rw [if_pos hB, if_pos hB]; rfl
      · rw [if_neg hB, if_neg hB]
        exact rfl
  refine ⟨?_, ?_, ?_, rfl, ?_, ?_⟩
  · rw [hcn]; split_ifs with hA hB
    · exact iff_of_true rfl (by omega)
    · exact iff_of_false (by decide) (by omega)
    · exact iff_of_false (by decide) (by omega)
  · rw [hcn]; split_ifs with hA hB
    · exact iff_of_false (by decide) (by omega)
    · exact iff_of_true rfl (by omega)
    · exact iff_of_false (by decide) (by omega)
  · rw [hcn]; split_ifs with hA hB
    · exact iff_of_false (by decide) (by omega)
    · exact iff_of_false (by decide) (by omega)
    · exact iff_of_true rfl (by omega)
  · refine pad2_two_digits _ (Int.ediv_nonneg h0 (by norm_num)) ?_
    have hmono : Int.ediv ts 60 ≤ Int.ediv 5999 60 :=
      Int.ediv_le_ediv (by norm_num) (by omega)
    have h99 : Int.ediv 5999 60 = 99 := by decide
    omega
  · refine pad2_two_digits _ (Int.tmod_nonneg _ h0) ?_
    have := Int.tmod_lt_of_pos ts (show (0 : Int) < 60 by norm_num)
    omega

/-- Witness for C6 at the clock value 125 (02:05, neutral styling). -/
theorem claim_C6_witness :
    (0 : Int) ≤ 125 ∧ (125 : Int) < 6000 ∧
    ((Deck.renderTimer Deck.ACTIVITY_STEPS 0 125).className = "timer-display"
        ↔ (30 : Int) < 125) :=
  ⟨by decide, by decide,
   (claim_C6 Deck.ACTIVITY_STEPS 0 125 (by decide) (by decide)).2.2.1⟩

/-- C6 counterexample: at `remainingSeconds = 0` (the Complete state) the
display class is `"timer-display warning"`, not the neutral
`"timer-display"` the claim asserts. -/
theorem claim_C6_counterexample :
    (Deck.renderTimer Deck.ACTIVITY_STEPS Deck.ACTIVITY_STEPS.length 0).className
        = "timer-display warning" ∧
    (Deck.renderTimer Deck.ACTIVITY_STEPS Deck.ACTIVITY_STEPS.length 0).className
        ≠ "timer-display" := by
  decide

/-- Helper: the JS `split` never returns an empty list of segments. -/
theorem splitCharList_ne_nil (sep : Char) (l : List Char) :
    DeckB.splitCharList sep l ≠ [] := by
  cases l with
  | nil => simp [DeckB.splitCharList]
  | cons c cs =>
    unfold DeckB.splitCharList
    split
    · simp
    · split <;> simp

/-- C7 (amended): a missing or empty cue attribute parses to the empty cue
list and parsing never fails; but a malformed non-empty attribute does not
parse to the empty list: it yields one cue per comma-separated segment,
with a `NaN` (here `none`) offset for each unparsable one. -/
theorem claim_C7 :
    DeckB.parseCues none = [] ∧
    DeckB.parseCues (some "") = [] ∧
    (∀ a : String, a ≠ "" →
      (DeckB.parseCues (some a)).length = (DeckB.splitChar ',' a).length ∧
      DeckB.parseCues (some a) ≠ []) ∧
    DeckB.parseCues (some "a:1,")
      = [{ id := "a", start := some 1 }, { id := "", start := none }] ∧
    DeckB.parseCues (some "a:xyz") = [{ id := "a", start := none }] := by
  refine ⟨rfl, rfl, ?_, by with_unfolding_all decide, by with_unfolding_all decide⟩
  intro a ha
  have hguard : ¬ ((some a : Option String) = none ∨ (some a : Option String) = some "") := by
    simp [ha]
  constructor
  · unfold DeckB.parseCues
    rw [if_neg hguard]
    exact List.length_map _ _
  · unfold DeckB.parseCues
    rw [if_neg hguard]
    simp only [ne_eq, List.map_eq_nil_iff, DeckB.splitChar]
    exact splitCharList_ne_nil ',' a.toList

/-- Witness for C7's universally quantified part at a concrete attribute. -/
theorem claim_C7_witness :
    ("a:1,b:2" : String) ≠ "" ∧
    (DeckB.parseCues (some "a:1,b:2")).length
        = (DeckB.splitChar ',' "a:1,b:2").length ∧
    DeckB.parseCues (some "a:1,b:2") ≠ [] :=
  ⟨by decide, (claim_C7.2.2.1 "a:1,b:2" (by decide)).1,
    (claim_C7.2.2.1 "a:1,b:2" (by decide)).2⟩

/-- C7 counterexample: the malformed attributes `"a:1,"` (trailing comma)
and `"a:xyz"` (non-numeric offset) yield non-empty cue lists, contradicting
the claim that malformed input yields an empty cue list. -/
theorem claim_C7_counterexample :
    DeckB.parseCues (some "a:1,") ≠ [] ∧ DeckB.parseCues (some "a:xyz") ≠ [] := by
  with_unfolding_all decide

/-! ### Navigation helpers -/

/-- Helper: `updateProgress` leaves the cursor alone. -/
theorem updateProgress_currentIndex (count : Nat) (s : Deck.NavSys) :
    (Deck.updateProgress count s).currentIndex = s.currentIndex := rfl

/-- Helper: `updateCounter` leaves the cursor alone. -/
theorem updateCounter_currentIndex (count : Nat) (s : Deck.NavSys) :
    (Deck.updateCounter count s).currentIndex = s.currentIndex := rfl

/-- Helper: `updateNotes` leaves the cursor alone. -/
theorem updateNotes_currentIndex (notes : List (Option String)) (s : Deck.NavSys) :
    (Deck.updateNotes notes s).currentIndex = s.currentIndex := rfl

/-- Helper: `updateMusic` leaves the cursor alone. -/
theorem updateMusic_currentIndex (count : Nat) (s : Deck.NavSys) :
    (Deck.updateMusic count s).currentIndex = s.currentIndex := by
  unfold Deck.updateMusic
  dsimp only
  split_ifs <;> rfl

/-- Helper: the cursor after `goToSlide` is the requested index when it is
in range and is untouched otherwise. -/
theorem goToSlide_currentIndex (count : Nat) (notes : List (Option String))
    (index : Int) (s : Deck.NavSys) :
    (Deck.goToSlide count notes index s).currentIndex =
      if index < 0 ∨ (count : Int) ≤ index then s.currentIndex else index := by
  unfold Deck.goToSlide
  split_ifs with hi
  · rfl
  · rw [updateMusic_currentIndex, updateNotes_currentIndex,
        updateCounter_currentIndex, updateProgress_currentIndex]

/-- C5: every out-of-range `goTo` request is a no-op on the whole state
(cursor and all derived UI alike) and raises nothing; after any `goTo` from
a valid state the cursor remains in `[0, slideCount-1]`; and `next` /
`previous` clamp at the boundaries rather than wrapping. -/
theorem claim_C5 (count : Nat) (notes : List (Option String)) (s : Deck.NavSys)
    (h : 0 ≤ s.currentIndex ∧ s.currentIndex < (count : Int)) :
    (∀ i : Int, (i < 0 ∨ (count : Int) ≤ i) → Deck.goToSlide count notes i s = s) ∧
    (∀ i : Int, 0 ≤ (Deck.goToSlide count notes i s).currentIndex ∧
        (Deck.goToSlide count notes i s).currentIndex < (count : Int)) ∧
    (Deck.nextSlide count notes s).currentIndex
        = min ((count : Int) - 1) (s.currentIndex + 1) ∧
    (Deck.prevSlide count notes s).currentIndex = max 0 (s.currentIndex - 1) := by
  refine ⟨?_, ?_, ?_, ?_⟩
  · intro i hi
    unfold Deck.goToSlide
    rw [if_pos hi]
  · intro i
    rw [goToSlide_currentIndex]
    split_ifs with hi
    · omega
    · omega
  · unfold Deck.nextSlide
    rw [goToSlide_currentIndex]
    rw [if_neg (by omega)]
  · unfold Deck.prevSlide
    rw [goToSlide_currentIndex]
    rw [if_neg (by omega)]

/-- Witness for C5 on a concrete five-slide deck state. -/
theorem claim_C5_witness :
    (0 ≤ navDemo.currentIndex ∧ navDemo.currentIndex < (5 : Int)) ∧
    Deck.goToSlide 5 [] 7 navDemo = navDemo ∧
    (Deck.nextSlide 5 [] navDemo).currentIndex
        = min ((5 : Int) - 1) (navDemo.currentIndex + 1) :=
  ⟨by decide,
   (claim_C5 5 [] navDemo (by decide)).1 7 (by decide),
   (claim_C5 5 [] navDemo (by decide)).2.2.1⟩

/-- C9: the rendered progress fraction is `currentIndex / (slideCount - 1)`
(as a percentage) when `slideCount > 1` and `100%` when `slideCount = 1`,
with the claimed concrete values; the counter text is
`"{currentIndex+1} / {slideCount}"`; and the previous/next controls are
disabled exactly at the first/last index. -/
theorem claim_C9 (count : Nat) (s : Deck.NavSys)
    (h : 0 ≤ s.currentIndex ∧ s.currentIndex < (count : Int)) :
    (1 < count → (Deck.updateProgress count s).progressWidth
        = (s.currentIndex : ℚ) / ((count : ℚ) - 1) * 100) ∧
    (count = 1 → (Deck.updateProgress count s).progressWidth = 100) ∧
    (Deck.updateProgress 5 { s with currentIndex := 0 }).progressWidth = 0 ∧
    (Deck.updateProgress 5 { s with currentIndex := 4 }).progressWidth = 100 ∧
    (Deck.updateProgress 1 { s with currentIndex := 0 }).progressWidth = 100 ∧
    (Deck.updateCounter count s).counterText
        = toString (s.currentIndex + 1) ++ " / " ++ toString count ∧
    ((Deck.updateCounter count s).prevDisabled = true ↔ s.currentIndex = 0) ∧
    ((Deck.updateCounter count s).nextDisabled = true
        ↔ s.currentIndex = (count : Int) - 1) := by
  refine ⟨?_, ?_, ?_, ?_, ?_, rfl, ?_, ?_⟩
  · intro hc
    unfold Deck.updateProgress
    rw [if_pos hc]
  · intro hc
    subst hc
    rfl
  · unfold Deck.updateProgress
    norm_num
  · unfold Deck.updateProgress
    norm_num
  · rfl
  · unfold Deck.updateCounter
    simp
  · unfold Deck.updateCounter
    simp

/-- Witness for C9 on a concrete five-slide deck state. -/
theorem claim_C9_witness :
    (0 ≤ navDemo.currentIndex ∧ navDemo.currentIndex < (5 : Int)) ∧
    ((Deck.updateCounter 5 navDemo).prevDisabled = true
        ↔ navDemo.currentIndex = 0) :=
  ⟨by decide, (claim_C9 5 navDemo (by decide)).2.2.2.2.2.2.1⟩

/-! ### Music widget helpers -/

/-- Helper: after any `updateMusic` call, `musicActive` equals the pure
visibility predicate of the current index. -/
theorem updateMusic_musicActive (count : Nat) (s : Deck.NavSys) :
    (Deck.updateMusic count s).musicActive
      = decide ((count : Int) - 3 ≤ s.currentIndex) := by
  unfold Deck.updateMusic
  by_cases hP : (count : Int) - 3 ≤ s.currentIndex
  · cases hA : s.musicActive <;> simp [hP, hA]
  · cases hA : s.musicActive <;> simp [hP, hA]

/-- Helper: starting from a state whose `visible` class agrees with
`musicActive`, after `updateMusic` the DOM-visible class equals the pure
visibility predicate. -/
theorem updateMusic_musicVisible (count : Nat) (s : Deck.NavSys)
    (h : s.musicVisible = s.musicActive) :
    (Deck.updateMusic count s).musicVisible
      = decide ((count : Int) - 3 ≤ s.currentIndex) := by
  unfold Deck.updateMusic
  by_cases hP : (count : Int) - 3 ≤ s.currentIndex
  · cases hA : s.musicActive <;> simp [hP, hA, h]
  · cases hA : s.musicActive <;> simp [hP, hA, h]

/-- Helper: `updateMusic` performs one DOM write exactly when the desired
visibility differs from `musicActive`, and none otherwise. -/
theorem updateMusic_musicWrites (count : Nat) (s : Deck.NavSys) :
    (Deck.updateMusic count s).musicWrites
      = (if decide ((count : Int) - 3 ≤ s.currentIndex) = s.musicActive
         then s.musicWrites else s.musicWrites + 1) := by
  unfold Deck.updateMusic
  by_cases hP : (count : Int) - 3 ≤ s.currentIndex
  · cases hA : s.musicActive <;> simp [hP, hA]
  · cases hA : s.musicActive <;> simp [hP, hA]

/-- Helper: write count of an `updateMusic` call made right after moving
the cursor of a post-`updateMusic` state. -/
theorem updateMusic_writes_after_move (count : Nat) (i2 : Int) (u : Deck.NavSys) :
    (Deck.updateMusic count { u with currentIndex := i2 }).musicWrites
      = (if decide ((count : Int) - 3 ≤ i2) = u.musicActive then u.musicWrites
         else u.musicWrites + 1) := by
  simpa using updateMusic_musicWrites count { u with currentIndex := i2 }

/-- C3 (amended): in both variants the widget's visibility is the pure
function `currentIndex ≥ slideCount - 3`. The `deck.js` variant suppresses
redundant writes: navigating between two indices on the same side of the
boundary mutates the DOM zero times, and crossing it mutates exactly once.
The `part_001` variant instead assigns the widget's `display` style
unconditionally: every navigation performs exactly one style write, even
when the resulting visible state is unchanged. -/
theorem claim_C3 (count : Nat) (i1 i2 : Int) (s : Deck.NavSys)
    (hcons : s.musicVisible = s.musicActive) :
    ((Deck.updateMusic count { s with currentIndex := i1 }).musicVisible
        = decide ((count : Int) - 3 ≤ i1)) ∧
    ((Deck.updateMusic count { s with currentIndex := i1 }).musicActive
        = decide ((count : Int) - 3 ≤ i1)) ∧
    ((((count : Int) - 3 ≤ i1) ↔ ((count : Int) - 3 ≤ i2)) →
      (Deck.updateMusic count
          { Deck.updateMusic count { s with currentIndex := i1 } with
            currentIndex := i2 }).musicWrites
        = (Deck.updateMusic count { s with currentIndex := i1 }).musicWrites) ∧
    ((¬ ((count : Int) - 3 ≤ i1) ↔ ((count : Int) - 3 ≤ i2)) →
      (Deck.updateMusic count
          { Deck.updateMusic count { s with currentIndex := i1 } with
            currentIndex := i2 }).musicWrites
        = (Deck.updateMusic count { s with currentIndex := i1 }).musicWrites + 1) ∧
    (∀ t : DeckB.NavSysB,
      (DeckB.updateMusic count { t with currentIndex := i2 }).musicDisplay
        = (if (count : Int) - 3 ≤ i2 then "block" else "none") ∧
      (DeckB.updateMusic count { t with currentIndex := i2 }).musicWrites
        = t.musicWrites + 1) := by
  have h1 : (Deck.updateMusic count { s with currentIndex := i1 }).musicActive
      = decide ((count : Int) - 3 ≤ i1) :=
    updateMusic_musicActive count { s with currentIndex := i1 }
  refine ⟨?_, h1, ?_, ?_, ?_⟩
  · exact updateMusic_musicVisible count { s with currentIndex := i1 } hcons
  · intro hiff
    rw [updateMusic_writes_after_move, h1]
    rw [if_pos (by simp only [decide_eq_decide]; exact hiff.symm)]
  · intro hxor
    rw [updateMusic_writes_after_move, h1]
    refine if_neg ?_
    simp only [ne_eq, decide_eq_decide]
    intro hiff
    by_cases hp : (count : Int) - 3 ≤ i1
    · exact (hxor.mpr (hiff.mpr hp)) hp
    · exact hp (hiff.mp (hxor.mp hp))
  · intro t
    constructor
    · unfold DeckB.updateMusic
      by_cases hp : (count : Int) - 3 ≤ i2 <;> simp [hp]
    · rfl

/-- Witness for C3: a ten-slide deck, moving 6 → 7 (one crossing write for
`deck.js`), then 7 → 8 (no write). -/
theorem claim_C3_witness :
    navDemo.musicVisible = navDemo.musicActive ∧
    ((¬ ((10 : Int) - 3 ≤ 6) ↔ ((10 : Int) - 3 ≤ 7)) →
      (Deck.updateMusic 10
          { Deck.updateMusic 10 { navDemo with currentIndex := 6 } with
            currentIndex := 7 }).musicWrites
        = (Deck.updateMusic 10 { navDemo with currentIndex := 6 }).musicWrites + 1) ∧
    ((((10 : Int) - 3 ≤ 7) ↔ ((10 : Int) - 3 ≤ 8)) →
      (Deck.updateMusic 10
          { Deck.updateMusic 10 { navDemo with currentIndex := 7 } with
            currentIndex := 8 }).musicWrites
        = (Deck.updateMusic 10 { navDemo with currentIndex := 7 }).musicWrites) :=
  ⟨rfl,
   (claim_C3 10 6 7 navDemo rfl).2.2.2.1,
   (claim_C3 10 7 8 navDemo rfl).2.2.1⟩

/-- C3 counterexample: in the `part_001` variant, navigating 7 → 8 in a
ten-slide deck (both indices in the visible range) still performs a style
write — the claim's "zero mutations" fails on that variant. -/
theorem claim_C3_counterexample :
    (DeckB.updateMusic 10
        { DeckB.updateMusic 10 { navDemoB with currentIndex := 7 } with
          currentIndex := 8 }).musicWrites
      ≠ (DeckB.updateMusic 10 { navDemoB with currentIndex := 7 }).musicWrites ∧
    (DeckB.updateMusic 10 { navDemoB with currentIndex := 7 }).musicDisplay
      = "block" ∧
    (DeckB.updateMusic 10
        { DeckB.updateMusic 10 { navDemoB with currentIndex := 7 } with
          currentIndex := 8 }).musicDisplay = "block" := by
  refine ⟨by decide, by decide, by decide⟩

/-! ### Metadata loader -/

/-- C8: the metadata loader never propagates an exception (it is total on
every parse outcome); a parse failure or missing `videos` field leaves
every UI slot exactly as if no metadata were present; a payload whose `v2`
record is absent shows the placeholders "Not detected" / "Play to see" for
`v2`; and the `v1`/`v3` outputs are exactly what they would be if a `v2`
record were present. -/
theorem claim_C8 (hasPlayer : Deck.VKey → Bool) (slots : Deck.VKey → Deck.VideoSlot)
    (tbl : Deck.VKey → Option Deck.VideoRec) (h2 : tbl .v2 = none) :
    Deck.hydrateVideos .malformed hasPlayer slots = slots ∧
    Deck.hydrateVideos .noVideos hasPlayer slots = slots ∧
    (Deck.hydrateVideos (.withVideos tbl) hasPlayer slots .v2).fileText
        = "Not detected" ∧
    (Deck.hydrateVideos (.withVideos tbl) hasPlayer slots .v2).durText
        = "Play to see" ∧
    (∀ rec2 : Deck.VideoRec, ∀ k : Deck.VKey, k ≠ .v2 →
      Deck.hydrateVideos
          (.withVideos fun q => if q = .v2 then some rec2 else tbl q)
          hasPlayer slots k
        = Deck.hydrateVideos (.withVideos tbl) hasPlayer slots k) := by
  refine ⟨rfl, rfl, ?_, ?_, ?_⟩
  · show (Deck.hydrateKey (hasPlayer .v2) (tbl .v2) (slots .v2)).fileText = _
    rw [h2]
    cases hasPlayer .v2 <;> rfl
  · show (Deck.hydrateKey (hasPlayer .v2) (tbl .v2) (slots .v2)).durText = _
    rw [h2]
    cases hasPlayer .v2 <;> rfl
  · intro rec2 k hk
    show Deck.hydrateKey (hasPlayer k) (if k = .v2 then some rec2 else tbl k) (slots k)
        = Deck.hydrateKey (hasPlayer k) (tbl k) (slots k)
    rw [if_neg hk]

/-- Witness for C8 on a concrete table whose `v2` record is absent. -/
theorem claim_C8_witness :
    demoTbl .v2 = none ∧
    (Deck.hydrateVideos (.withVideos demoTbl) (fun _ => true) demoSlots .v2).fileText
        = "Not detected" ∧
    (Deck.hydrateVideos (.withVideos demoTbl) (fun _ => true) demoSlots .v2).durText
        = "Play to see" :=
  ⟨rfl,
   (claim_C8 (fun _ => true) demoSlots demoTbl rfl).2.2.1,
   (claim_C8 (fun _ => true) demoSlots demoTbl rfl).2.2.2.1⟩

/-! ### Timer reset and cancellation -/

/-- Helper: under the registry invariant, `clearInterval(timerInterval)`
empties the registry. -/
theorem clearCurrentInterval_eq_nil (s : Deck.TimerSys)
    (h : ∀ x ∈ s.live, s.timerInterval = some x) :
    Deck.clearCurrentInterval s = [] := by
  unfold Deck.clearCurrentInterval
  rw [List.filter_eq_nil_iff]
  intro x hx
  simp [h x hx]

/-- Helper: every timer event preserves the interval-registry invariant. -/
theorem timerStep_inv (steps : List Deck.ActivityStep) (e : Deck.TimerEv)
    (s : Deck.TimerSys) (h : Deck.TimerInv s) :
    Deck.TimerInv (Deck.timerStep steps e s) := by
  obtain ⟨h1, h2⟩ := h
  cases e with
  | btnClick =>
    show Deck.TimerInv (Deck.clickTimerBtn s)
    unfold Deck.clickTimerBtn
    split_ifs with hd hr
    · exact ⟨h1, h2⟩
    · have hnil := clearCurrentInterval_eq_nil s h1
      simp [Deck.TimerInv, Deck.pauseTimer, hnil]
    · have hl : s.live = [] := h2 (by simpa using hr)
      simp [Deck.TimerInv, Deck.startTimer, hl]
  | resetClick =>
    have hnil := clearCurrentInterval_eq_nil s h1
    show Deck.TimerInv (Deck.resetTimer steps s)
    simp [Deck.TimerInv, Deck.resetTimer, hnil]
  | tick hdl =>
    show Deck.TimerInv (Deck.tickFire steps hdl s)
    unfold Deck.tickFire
    split_ifs with hmem
    · have hrun : s.timerRunning = true := by
        by_contra hc
        rw [h2 (by simpa using hc)] at hmem
        exact absurd hmem (List.not_mem_nil _)
      have hnil := clearCurrentInterval_eq_nil s h1
      unfold Deck.tickUpdate
      dsimp only
      split_ifs with hts hsi
      · exact ⟨h1, fun hf => by simp [hrun] at hf⟩
      · simp [Deck.TimerInv, hnil]
      · exact ⟨h1, fun hf => by simp [hrun] at hf⟩
    · exact ⟨h1, h2⟩

/-- Helper: every state reachable from `setupTimer` through button clicks,
reset clicks and tick deliveries satisfies the registry invariant. -/
theorem runTimer_inv (steps : List Deck.ActivityStep) (evs : List Deck.TimerEv) :
    Deck.TimerInv (Deck.runTimer steps evs) := by
  suffices hgen : ∀ s, Deck.TimerInv s →
      Deck.TimerInv (evs.foldl (fun s e => Deck.timerStep steps e s) s) from
    hgen _ ⟨fun x hx => absurd hx (by simp [Deck.initTimer]),
            fun _ => by simp [Deck.initTimer]⟩
  induction evs with
  | nil => exact fun s hs => hs
  | cons e es ih => exact fun s hs => ih _ (timerStep_inv steps e s hs)

/-- C4: from every reachable timer state, a reset-button click restores
step 0, the first step's full duration, the enabled "Start" control, and
empties the interval registry, so that every tick scheduled before the
reset is dead: delivering it afterwards changes nothing at all. -/
theorem claim_C4 (steps : List Deck.ActivityStep) (evs : List Deck.TimerEv)
    (hne : steps ≠ []) :
    (Deck.timerStep steps .resetClick (Deck.runTimer steps evs)).stepIndex = 0 ∧
    (Deck.timerStep steps .resetClick (Deck.runTimer steps evs)).timerSeconds
        = (steps.head hne).duration ∧
    (Deck.timerStep steps .resetClick (Deck.runTimer steps evs)).timerRunning
        = false ∧
    (Deck.timerStep steps .resetClick (Deck.runTimer steps evs)).btnDisabled
        = false ∧
    (Deck.timerStep steps .resetClick (Deck.runTimer steps evs)).btnLabel
        = "Start" ∧
    (Deck.timerStep steps .resetClick (Deck.runTimer steps evs)).live = [] ∧
    (∀ hdl : Nat,
      Deck.timerStep steps (.tick hdl)
          (Deck.timerStep steps .resetClick (Deck.runTimer steps evs))
        = Deck.timerStep steps .resetClick (Deck.runTimer steps evs)) := by
  have hinv := runTimer_inv steps evs
  have hnil : Deck.clearCurrentInterval (Deck.runTimer steps evs) = [] :=
    clearCurrentInterval_eq_nil _ hinv.1
  have hlive : (Deck.timerStep steps .resetClick (Deck.runTimer steps evs)).live
      = [] := hnil
  refine ⟨rfl, ?_, rfl, rfl, rfl, hlive, ?_⟩
  · show Deck.headDuration steps = (steps.head hne).duration
    cases steps with
    | nil => exact absurd rfl hne
    | cons a l => rfl
  · intro hdl
    show Deck.tickFire steps hdl _ = _
    unfold Deck.tickFire
    rw [hlive, if_neg (List.not_mem_nil hdl)]

/-- Witness for C4: reset after starting the real activity timer and
letting one tick fire; the stale tick handle 0 is then dead. -/
theorem claim_C4_witness :
    Deck.ACTIVITY_STEPS ≠ [] ∧
    (Deck.timerStep Deck.ACTIVITY_STEPS .resetClick
        (Deck.runTimer Deck.ACTIVITY_STEPS [.btnClick, .tick 0])).stepIndex = 0 ∧
    (∀ hdl : Nat,
      Deck.timerStep Deck.ACTIVITY_STEPS (.tick hdl)
          (Deck.timerStep Deck.ACTIVITY_STEPS .resetClick
            (Deck.runTimer Deck.ACTIVITY_STEPS [.btnClick, .tick 0]))
        = Deck.timerStep Deck.ACTIVITY_STEPS .resetClick
            (Deck.runTimer Deck.ACTIVITY_STEPS [.btnClick, .tick 0])) :=
  ⟨by decide,
   (claim_C4 Deck.ACTIVITY_STEPS [.btnClick, .tick 0] (by decide)).1,
   (claim_C4 Deck.ACTIVITY_STEPS [.btnClick, .tick 0] (by decide)).2.2.2.2.2.2⟩

/-! ### Narration invariant -/

/-- Helper: writing one array slot leaves the others' `getD` reads alone. -/
theorem getD_set_ne {α : Type} (l : List α) (i j : Nat) (x d : α) (h : i ≠ j) :
    (l.set i x).getD j d = l.getD j d := by
  simp [List.getD_eq_getElem?_getD, List.getElem?_set_ne h]

/-- Helper: writing an in-bounds array slot is read back by `getD`. -/
theorem getD_set_self {α : Type} (l : List α) (i : Nat) (x d : α)
    (h : i < l.length) :
    (l.set i x).getD i d = x := by
  simp [List.getD_eq_getElem?_getD, List.getElem?_set_self h]

/-- C2: at most one narration is active. Clicking control `b` while a
different control `a` is actively playing equals a full stop of `a`
followed by a start of `b` — afterwards `a`'s audio is paused and rewound,
its button shows the Listen glyph, every one of `a`'s scheduled cue
timeouts is gone from the pending set, the highlight is cleared, and `b` is
the active, playing control. Clicking the active, currently playing control
itself is exactly `stopNarrate`, leaving the active pointer empty. The
freshness hypothesis (`a`'s timer handles precede `nextTimer`) holds for
every state the handlers construct, since handles are allocated from the
monotone counter. -/
theorem claim_C2 (ct : List (List DeckB.Cue)) (s : DeckB.NarrSys)
    (a : DeckB.ActiveRec) (b : Nat)
    (hact : s.active = some a)
    (hplay : (DeckB.audioAt s a.btnIdx).paused = false)
    (ha : a.btnIdx < s.audios.length) (ha2 : a.btnIdx < s.btns.length)
    (hb : b < s.audios.length)
    (hfresh : ∀ t ∈ a.timers, t < s.nextTimer) :
    (a.btnIdx ≠ b →
      DeckB.clickNarrate ct b s = DeckB.playNarrate ct b (DeckB.stopNarrate s) ∧
      DeckB.audioAt (DeckB.clickNarrate ct b s) a.btnIdx
          = { paused := true, currentTime := 0 } ∧
      DeckB.btnAt (DeckB.clickNarrate ct b s) a.btnIdx
          = { playing := false, icon := .listen } ∧
      (∀ t ∈ a.timers, ∀ p ∈ (DeckB.clickNarrate ct b s).pending, p.1 ≠ t) ∧
      (DeckB.clickNarrate ct b s).highlighted = none ∧
      ((DeckB.clickNarrate ct b s).active.map DeckB.ActiveRec.btnIdx) = some b ∧
      (DeckB.audioAt (DeckB.clickNarrate ct b s) b).paused = false ∧
      (DeckB.audioAt (DeckB.clickNarrate ct b s) b).currentTime = 0) ∧
    (a.btnIdx = b →
      DeckB.clickNarrate ct b s = DeckB.stopNarrate s ∧
      (DeckB.clickNarrate ct b s).active = none) := by
  have hstop : DeckB.stopNarrate s =
      { s with
        audios := s.audios.set a.btnIdx { paused := true, currentTime := 0 }
        btns := s.btns.set a.btnIdx { playing := false, icon := .listen }
        pending := s.pending.filter (fun p => decide (p.1 ∉ a.timers))
        highlighted := none
        active := none } := by
    unfold DeckB.stopNarrate
    rw [hact]
  constructor
  · intro hneq
    have hA : DeckB.clickNarrate ct b s
        = DeckB.playNarrate ct b (DeckB.stopNarrate s) := by
      unfold DeckB.clickNarrate
      simp only [hact]
      rw [if_neg (fun hcon => hneq hcon.1)]
    refine ⟨hA, ?_, ?_, ?_, ?_, ?_, ?_, ?_⟩
    · rw [hA, hstop]
      unfold DeckB.playNarrate DeckB.audioAt
      dsimp only
      rw [getD_set_ne _ b a.btnIdx _ _ (Ne.symm hneq)]
      exact getD_set_self _ _ _ _ ha
    · rw [hA, hstop]
      unfold DeckB.playNarrate DeckB.btnAt
      dsimp only
      rw [getD_set_ne _ b a.btnIdx _ _ (Ne.symm hneq)]
      exact getD_set_self _ _ _ _ ha2
    · intro t ht p hp
      rw [hA, hstop] at hp
      unfold DeckB.playNarrate at hp
      dsimp only at hp
      rcases List.mem_append.mp hp with hleft | hright
      · have := (List.mem_filter.mp hleft).2
        intro hpt
        rw [hpt] at this
        simp [ht] at this
      · obtain ⟨pt, pid⟩ := p
        have hpt : pt ∈ (List.range (ct.getD b []).length).map (s.nextTimer + ·) :=
          (List.of_mem_zip hright).1
        obtain ⟨k, _, hk⟩ := List.mem_map.mp hpt
        have := hfresh t ht
        simp only []
        omega
    · rw [hA, hstop]
      unfold DeckB.playNarrate
      rfl
    · rw [hA, hstop]
      unfold DeckB.playNarrate
      rfl
    · rw [hA, hstop]
      unfold DeckB.playNarrate DeckB.audioAt
      dsimp only
      rw [getD_set_self _ _ _ _ (by simpa using hb)]
    · rw [hA, hstop]
      unfold DeckB.playNarrate DeckB.audioAt
      dsimp only
      rw [getD_set_self _ _ _ _ (by simpa using hb)]
  · intro heq
    have hB : DeckB.clickNarrate ct b s = DeckB.stopNarrate s := by
      unfold DeckB.clickNarrate
      simp only [hact]
      rw [if_pos ⟨heq, hplay⟩]
    refine ⟨hB, ?_⟩
    rw [hB, hstop]

/-- Witness for C2: control 0 of the two-control demo system is active and
playing; clicking control 1 tears 0 down and starts 1; clicking control 0
itself stops it. -/
theorem claim_C2_witness :
    narrDemo.active = some narrA ∧
    (DeckB.audioAt narrDemo narrA.btnIdx).paused = false ∧
    (DeckB.clickNarrate narrCues 1 narrDemo
        = DeckB.playNarrate narrCues 1 (DeckB.stopNarrate narrDemo) ∧
      DeckB.audioAt (DeckB.clickNarrate narrCues 1 narrDemo) narrA.btnIdx
          = { paused := true, currentTime := 0 } ∧
      DeckB.btnAt (DeckB.clickNarrate narrCues 1 narrDemo) narrA.btnIdx
          = { playing := false, icon := .listen } ∧
      (∀ t ∈ narrA.timers,
        ∀ p ∈ (DeckB.clickNarrate narrCues 1 narrDemo).pending, p.1 ≠ t) ∧
      (DeckB.clickNarrate narrCues 1 narrDemo).highlighted = none ∧
      ((DeckB.clickNarrate narrCues 1 narrDemo).active.map DeckB.ActiveRec.btnIdx)
          = some 1 ∧
      (DeckB.audioAt (DeckB.clickNarrate narrCues 1 narrDemo) 1).paused = false ∧
      (DeckB.audioAt (DeckB.clickNarrate narrCues 1 narrDemo) 1).currentTime = 0) ∧
    (DeckB.clickNarrate narrCues 0 narrDemo = DeckB.stopNarrate narrDemo ∧
      (DeckB.clickNarrate narrCues 0 narrDemo).active = none) :=
  ⟨rfl, by decide,
   (claim_C2 narrCues narrDemo narrA 1 rfl (by decide) (by decide) (by decide)
      (by decide) (by decide)).1 (by decide),
   (claim_C2 narrCues narrDemo narrA 0 rfl (by decide) (by decide) (by decide)
      (by decide) (by decide)).2 (by decide)⟩

/-! ### Refinement between the two engine variants -/

/-- Helper: the `deck.js` music widget never touches the shared navigator
state. -/
theorem updateMusic_shared (count : Nat) (x : Deck.NavSys) :
    (Deck.updateMusic count x).currentIndex = x.currentIndex ∧
    (Deck.updateMusic count x).active = x.active ∧
    (Deck.updateMusic count x).progressWidth = x.progressWidth ∧
    (Deck.updateMusic count x).counterText = x.counterText ∧
    (Deck.updateMusic count x).prevDisabled = x.prevDisabled ∧
    (Deck.updateMusic count x).nextDisabled = x.nextDisabled ∧
    (Deck.updateMusic count x).notesText = x.notesText := by
  unfold Deck.updateMusic
  dsimp only
  split_ifs <;> exact ⟨rfl, rfl, rfl, rfl, rfl, rfl, rfl⟩

/-- Helper: `updateProgress` agrees across the two variants on agreeing
states. -/
theorem updateProgress_agrees (count : Nat) (x : Deck.NavSys) (y : DeckB.NavSysB)
    (h : navAgrees x y) :
    navAgrees (Deck.updateProgress count x) (DeckB.updateProgress count y) := by
  obtain ⟨hc, hac, hp, hct, hpd, hnd, hnt⟩ := h
  exact ⟨hc, hac,
    by unfold Deck.updateProgress DeckB.updateProgress; dsimp only; rw [hc],
    hct, hpd, hnd, hnt⟩

/-- Helper: `updateCounter` agrees across the two variants. -/
theorem updateCounter_agrees (count : Nat) (x : Deck.NavSys) (y : DeckB.NavSysB)
    (h : navAgrees x y) :
    navAgrees (Deck.updateCounter count x) (DeckB.updateCounter count y) := by
  obtain ⟨hc, hac, hp, hct, hpd, hnd, hnt⟩ := h
  exact ⟨hc, hac, hp,
    by unfold Deck.updateCounter DeckB.updateCounter; dsimp only; rw [hc],
    by unfold Deck.updateCounter DeckB.updateCounter; dsimp only; rw [hc],
    by unfold Deck.updateCounter DeckB.updateCounter; dsimp only; rw [hc],
    hnt⟩

/-- Helper: `updateNotes` agrees across the two variants. -/
theorem updateNotes_agrees (notes : List (Option String)) (x : Deck.NavSys)
    (y : DeckB.NavSysB) (h : navAgrees x y) :
    navAgrees (Deck.updateNotes notes x) (DeckB.updateNotes notes y) := by
  obtain ⟨hc, hac, hp, hct, hpd, hnd, hnt⟩ := h
  exact ⟨hc, hac, hp, hct, hpd, hnd,
    by unfold Deck.updateNotes DeckB.updateNotes; dsimp only; rw [hc]⟩

/-- Helper: each variant's music widget only touches its own widget state,
so agreement survives it. -/
theorem updateMusic_agrees (count : Nat) (x : Deck.NavSys) (y : DeckB.NavSysB)
    (h : navAgrees x y) :
    navAgrees (Deck.updateMusic count x) (DeckB.updateMusic count y) := by
  obtain ⟨hc, hac, hp, hct, hpd, hnd, hnt⟩ := h
  obtain ⟨m1, m2, m3, m4, m5, m6, m7⟩ := updateMusic_shared count x
  exact ⟨m1.trans hc, m2.trans hac, m3.trans hp, m4.trans hct, m5.trans hpd,
    m6.trans hnd, m7.trans hnt⟩

/-- Helper: `goToSlide` preserves agreement of the shared navigator
state. -/
theorem goToSlide_agrees (count : Nat) (notes : List (Option String)) (i : Int)
    (s : Deck.NavSys) (t : DeckB.NavSysB) (h : navAgrees s t) :
    navAgrees (Deck.goToSlide count notes i s) (DeckB.goToSlide count notes i t) := by
  unfold Deck.goToSlide DeckB.goToSlide
  split_ifs with hi
  · exact h
  · obtain ⟨hc, hac, hp, hct, hpd, hnd, hnt⟩ := h
    refine updateMusic_agrees count _ _ ?_
    refine updateNotes_agrees notes _ _ ?_
    refine updateCounter_agrees count _ _ ?_
    refine updateProgress_agrees count _ _ ?_
    exact ⟨rfl, by dsimp only; rw [hc, hac], hp, hct, hpd, hnd, hnt⟩

/-- C10: the two deck-engine variants implement the same navigation and
timer core. On shared-state-agreeing navigator states, `goToSlide`,
`nextSlide` and `prevSlide` keep every shared component (cursor, active
classes, progress, counter, boundary disabling, notes) identical across the
variants; their timer transition functions are identical as functions; and
the variants differ in their step-duration tables. -/
theorem claim_C10 (count : Nat) (notes : List (Option String)) (i : Int)
    (s : Deck.NavSys) (t : DeckB.NavSysB) (h : navAgrees s t) :
    navAgrees (Deck.goToSlide count notes i s) (DeckB.goToSlide count notes i t) ∧
    navAgrees (Deck.nextSlide count notes s) (DeckB.nextSlide count notes t) ∧
    navAgrees (Deck.prevSlide count notes s) (DeckB.prevSlide count notes t) ∧
    (∀ (steps : List Deck.ActivityStep) (u : Deck.TimerSys),
        Deck.tickUpdate steps u = DeckB.tickUpdate steps u ∧
        Deck.startTimer u = DeckB.startTimer u ∧
        Deck.pauseTimer u = DeckB.pauseTimer u ∧
        Deck.resetTimer steps u = DeckB.resetTimer steps u) ∧
    Deck.ACTIVITY_STEPS.map Deck.ActivityStep.duration
        ≠ DeckB.ACTIVITY_STEPS.map Deck.ActivityStep.duration := by
  refine ⟨goToSlide_agrees count notes i s t h, ?_, ?_,
    fun steps u => ⟨rfl, rfl, rfl, rfl⟩, by decide⟩
  · unfold Deck.nextSlide DeckB.nextSlide
    rw [h.1]
    exact goToSlide_agrees count notes _ s t h
  · unfold Deck.prevSlide DeckB.prevSlide
    rw [h.1]
    exact goToSlide_agrees count notes _ s t h

/-- Witness for C10 on the matching pair of concrete navigator states. -/
theorem claim_C10_witness :
    navAgrees navDemo navDemoB ∧
    navAgrees (Deck.goToSlide 5 [] 3 navDemo) (DeckB.goToSlide 5 [] 3 navDemoB) ∧
    Deck.ACTIVITY_STEPS.map Deck.ActivityStep.duration
        ≠ DeckB.ACTIVITY_STEPS.map Deck.ActivityStep.duration :=
  ⟨⟨rfl, rfl, rfl, rfl, rfl, rfl, rfl⟩,
   (claim_C10 5 [] 3 navDemo navDemoB ⟨rfl, rfl, rfl, rfl, rfl, rfl, rfl⟩).1,
   (claim_C10 5 [] 3 navDemo navDemoB ⟨rfl, rfl, rfl, rfl, rfl, rfl, rfl⟩).2.2.2.2⟩
